import Mathlib

/-!
Verification of the Rutgers course-recommendation pipeline.

This file is a shallow embedding of the deterministic scaffolding of the
multi-agent course-recommendation chatbot: the `CourseRAG` retrieval class
(`agent.py`), the shared `AgentResponse` envelope (`agents/shared_types.py`),
the parser, data, planning and orchestrator agents
(`agents/parser_agent.py`, `agents/data_agent.py`, `agents/planning_agent.py`,
`agents/orchestrator_agent.py`).

External effects are passed in as explicit oracle arguments:
an embedding-API call that can fail is `Option Embedding` (`none` models a
raised exception), an LLM call that can raise is `Except String _`.
Python floats are modelled as rationals; the numeric value of the cosine
similarity is irrelevant to the proved properties, so the similarity
function is a parameter.
-/

/-- Course record: a flat JSON document; the embedded code reads the keys
`code`, `title`, `credits`, `description`, `prerequisites`. A key absent
from the document is `none`. -/
structure Course where
  code : Option String
  title : Option String
  credits : Option String
  description : Option String
  prerequisites : Option (List String)
deriving Repr, DecidableEq

/-- Embedding vector, a list of floats in the source, modelled over ℚ. -/
abbrev Embedding := List ℚ

namespace CourseRAG

/-- Searchable text built by `CourseRAG._create_course_text`: the four
labelled fields joined by a separator, with a prerequisites part appended
when the key is present and the list non-empty. -/
def create_course_text (course : Course) : String :=
  let text_parts := [
    "Course Code: " ++ course.code.getD "N/A",
    "Title: " ++ course.title.getD "N/A",
    "Credits: " ++ course.credits.getD "N/A",
    "Description: " ++ course.description.getD "N/A"]
  let text_parts :=
    match course.prerequisites with
    | some (p :: ps) => text_parts ++ ["Prerequisites: " ++ String.intercalate ", " (p :: ps)]
    | _ => text_parts
  String.intercalate " | " text_parts

/-- `CourseRAG._create_course_embeddings`: one embedding per course, taken
from the embedding API (`embed`); when the API call raises for a course the
loop appends the 1536-dimensional zero vector and continues. Returns the
pair (course_embeddings, course_texts). -/
def create_course_embeddings (embed : String → Option Embedding) (courses : List Course) :
    List Embedding × List String :=
  (courses.map fun course =>
    match embed (create_course_text course) with
    | some e => e
    | none => List.replicate 1536 (0 : ℚ),
   courses.map create_course_text)

/-- Body of the loop at the end of `CourseRAG.retrieve_relevant_courses`:
for each `(i, score)` pair, copy `self.courses[i]` and attach the score as
`relevance_score`. An out-of-range index raises, which the surrounding
`except` turns into an empty result; that abort is modelled by `none`. -/
def attach_relevance (courses : List Course) : List (Nat × ℚ) → Option (List (Course × ℚ))
  | [] => some []
  | p :: ps =>
    match courses[p.1]?, attach_relevance courses ps with
    | some c, some rest => some ((c, p.2) :: rest)
    | _, _ => none

/-- `CourseRAG.retrieve_relevant_courses`: embed the query (the oracle
`query_embedding` is `none` when that call raises, in which case the
`except` branch returns `[]`), score every course embedding with `sim`
(the float-valued cosine similarity of the source), stable-sort the
`(index, score)` pairs by descending score, take the first `top_k`, and
attach each score to a copy of the corresponding course. -/
def retrieve_relevant_courses (sim : Embedding → Embedding → ℚ)
    (courses : List Course) (course_embeddings : List Embedding)
    (query_embedding : Option Embedding) (top_k : Nat) : List (Course × ℚ) :=
  match query_embedding with
  | none => []
  | some qe =>
    let similarities := course_embeddings.enum.map fun p => (p.1, sim qe p.2)
    let sorted := similarities.mergeSort fun a b => decide (b.2 ≤ a.2)
    match attach_relevance courses (sorted.take top_k) with
    | none => []
    | some relevant_courses => relevant_courses

/-- Cache file contents written by `CourseRAG._save_embeddings_cache`:
a JSON object with the two keys `embeddings` and `texts`. -/
structure CacheData where
  embeddings : List Embedding
  texts : List String
deriving Repr, DecidableEq

/-- `CourseRAG._save_embeddings_cache`: dump the current embeddings and
texts into the cache file. -/
def save_embeddings_cache (course_embeddings : List Embedding)
    (course_texts : List String) : CacheData :=
  { embeddings := course_embeddings, texts := course_texts }

/-- `CourseRAG._load_cached_embeddings`: `none` models returning `False`
(missing cache file, or a count mismatch between cached embeddings and the
current course list); on success the cached embeddings and texts are
installed unchanged. -/
def load_cached_embeddings (courses : List Course) (cache_file : Option CacheData) :
    Option (List Embedding × List String) :=
  match cache_file with
  | none => none
  | some cache_data =>
    if cache_data.embeddings.length ≠ courses.length then none
    else some (cache_data.embeddings, cache_data.texts)

/-- `CourseRAG.__init__`: use the cached embeddings when the load succeeds,
otherwise regenerate them with `_create_course_embeddings`. -/
def init (embed : String → Option Embedding) (courses : List Course)
    (cache_file : Option CacheData) : List Embedding × List String :=
  match load_cached_embeddings courses cache_file with
  | some (embs, txts) => (embs, txts)
  | none => create_course_embeddings embed courses

theorem attach_relevance_snd (courses : List Course) :
    ∀ ps l, attach_relevance courses ps = some l →
      l.map Prod.snd = ps.map Prod.snd := by
  intro ps
  induction ps with
  | nil =>
    intro l h
    simp only [attach_relevance, Option.some.injEq] at h
    subst h; rfl
  | cons p ps ih =>
    intro l h
    simp only [attach_relevance] at h
    cases hc : courses[p.1]? with
    | none => rw [hc] at h; exact absurd h (by simp)
    | some c =>
      cases hr : attach_relevance courses ps with
      | none => rw [hc, hr] at h; exact absurd h (by simp)
      | some rest =>
        rw [hc, hr] at h
        simp only [Option.some.injEq] at h
        subst h
        simp [ih rest hr]

theorem attach_relevance_length (courses : List Course)
    (ps : List (Nat × ℚ)) (l : List (Course × ℚ))
    (h : attach_relevance courses ps = some l) : l.length = ps.length := by
  have := attach_relevance_snd courses ps l h
  have h1 : (l.map Prod.snd).length = (ps.map Prod.snd).length := by rw [this]
  simpa using h1

theorem retrieve_take_aux (courses : List Course) (ps : List (Nat × ℚ)) (k : Nat)
    (hps : List.Pairwise (fun a b : Nat × ℚ => b.2 ≤ a.2) ps) :
    (match attach_relevance courses (ps.take k) with
     | none => ([] : List (Course × ℚ))
     | some l => l).length ≤ k ∧
    List.Pairwise (fun a b : Course × ℚ => b.2 ≤ a.2)
      (match attach_relevance courses (ps.take k) with
       | none => ([] : List (Course × ℚ))
       | some l => l) := by
  have htake : List.Pairwise (fun a b : Nat × ℚ => b.2 ≤ a.2) (ps.take k) :=
    List.Pairwise.sublist (List.take_sublist k ps) hps
  cases hat : attach_relevance courses (ps.take k) with
  | none => simp
  | some l =>
    simp only
    constructor
    · have hlen := attach_relevance_length courses _ _ hat
      have hk : (ps.take k).length ≤ k := by
        simp [List.length_take]
      omega
    · have hsnd := attach_relevance_snd courses _ _ hat
      have hmap : List.Pairwise (fun x y : ℚ => y ≤ x) ((ps.take k).map Prod.snd) := by
        rw [List.pairwise_map]
        exact htake
      rw [← hsnd] at hmap
      rw [List.pairwise_map] at hmap
      exact hmap

end CourseRAG

/-- C1: for every call to `CourseRAG.retrieve_relevant_courses` in which
the query-embedding call succeeds (modelled by passing `some qe`), the
returned list has at most `top_k` records and the attached
`relevance_score`s are in descending (non-increasing) order; no secondary
ordering is asserted. -/
theorem claim_C1_retrieve_sorted_topk (sim : Embedding → Embedding → ℚ)
    (courses : List Course) (course_embeddings : List Embedding)
    (qe : Embedding) (top_k : Nat) :
    (CourseRAG.retrieve_relevant_courses sim courses course_embeddings (some qe) top_k).length ≤ top_k ∧
    List.Pairwise (fun a b : Course × ℚ => b.2 ≤ a.2)
      (CourseRAG.retrieve_relevant_courses sim courses course_embeddings (some qe) top_k) := by
  have htrans : ∀ a b c : Nat × ℚ,
      (fun a b : Nat × ℚ => decide (b.2 ≤ a.2)) a b = true →
      (fun a b : Nat × ℚ => decide (b.2 ≤ a.2)) b c = true →
      (fun a b : Nat × ℚ => decide (b.2 ≤ a.2)) a c = true := by
    intro a b c hab hbc
    simp only [decide_eq_true_eq] at hab hbc ⊢
    exact le_trans hbc hab
  have htotal : ∀ a b : Nat × ℚ,
      ((fun a b : Nat × ℚ => decide (b.2 ≤ a.2)) a b ||
       (fun a b : Nat × ℚ => decide (b.2 ≤ a.2)) b a) = true := by
    intro a b
    simp only [Bool.or_eq_true, decide_eq_true_eq]
    exact le_total b.2 a.2
  have hsorted := List.sorted_mergeSort htrans htotal
    (course_embeddings.enum.map fun p => (p.1, sim qe p.2))
  have hps : List.Pairwise (fun a b : Nat × ℚ => b.2 ≤ a.2)
      ((course_embeddings.enum.map fun p => (p.1, sim qe p.2)).mergeSort
        fun a b => decide (b.2 ≤ a.2)) := by
    refine hsorted.imp ?_
    intro a b hab
    simpa using hab
  have haux := CourseRAG.retrieve_take_aux courses
    ((course_embeddings.enum.map fun p => (p.1, sim qe p.2)).mergeSort
      fun a b => decide (b.2 ≤ a.2)) top_k hps
  exact haux

/-- C5: saving the embedding cache and reloading it over the unchanged
course list reproduces the embedding vectors (and texts) unchanged; and
whenever the number of cached embeddings differs from the number of current
courses, the load is rejected and `__init__` regenerates the embeddings. -/
theorem claim_C5_cache_roundtrip (embed : String → Option Embedding)
    (courses : List Course) :
    CourseRAG.load_cached_embeddings courses
        (some (CourseRAG.save_embeddings_cache
          (CourseRAG.create_course_embeddings embed courses).1
          (CourseRAG.create_course_embeddings embed courses).2)) =
      some (CourseRAG.create_course_embeddings embed courses) ∧
    ∀ cache_data : CourseRAG.CacheData,
      cache_data.embeddings.length ≠ courses.length →
        CourseRAG.load_cached_embeddings courses (some cache_data) = none ∧
        CourseRAG.init embed courses (some cache_data) =
          CourseRAG.create_course_embeddings embed courses := by
  constructor
  · have hlen : (CourseRAG.create_course_embeddings embed courses).1.length = courses.length :=
      List.length_map courses _
    show CourseRAG.load_cached_embeddings courses (some _) = _
    rw [CourseRAG.load_cached_embeddings]
    simp only [CourseRAG.save_embeddings_cache, hlen, ne_eq, not_true_eq_false, if_false]
  · intro cache_data hne
    have hload : CourseRAG.load_cached_embeddings courses (some cache_data) = none := by
      simp [CourseRAG.load_cached_embeddings, hne]
    exact ⟨hload, by simp [CourseRAG.init, hload]⟩

/-- C5 witness: concrete instantiation with one course and an empty cache. -/
theorem claim_C5_cache_roundtrip_witness :
    (CourseRAG.load_cached_embeddings [⟨none, none, none, none, none⟩]
        (some (CourseRAG.save_embeddings_cache
          (CourseRAG.create_course_embeddings (fun _ => some [1]) [⟨none, none, none, none, none⟩]).1
          (CourseRAG.create_course_embeddings (fun _ => some [1]) [⟨none, none, none, none, none⟩]).2)) =
      some (CourseRAG.create_course_embeddings (fun _ => some [1]) [⟨none, none, none, none, none⟩])) ∧
    (CourseRAG.load_cached_embeddings [⟨none, none, none, none, none⟩]
        (some ⟨[], []⟩) = none ∧
      CourseRAG.init (fun _ => some [1]) [⟨none, none, none, none, none⟩] (some ⟨[], []⟩) =
        CourseRAG.create_course_embeddings (fun _ => some [1]) [⟨none, none, none, none, none⟩]) :=
  ⟨(claim_C5_cache_roundtrip (fun _ => some [1]) [⟨none, none, none, none, none⟩]).1,
   (claim_C5_cache_roundtrip (fun _ => some [1]) [⟨none, none, none, none, none⟩]).2
     ⟨[], []⟩ (by decide)⟩

/-- C6: a course whose embedding-API call raises gets the 1536-dimensional
zero vector stored at its position while the loop continues (every course
still gets an embedding), and a query whose query-time embedding call
raises makes `retrieve_relevant_courses` return the empty list. -/
theorem claim_C6_zero_vector_fallback (embed : String → Option Embedding)
    (courses : List Course) (sim : Embedding → Embedding → ℚ)
    (course_embeddings : List Embedding) (i : Nat) (c : Course)
    (hc : courses[i]? = some c)
    (hfail : embed (CourseRAG.create_course_text c) = none) :
    (CourseRAG.create_course_embeddings embed courses).1[i]? =
        some (List.replicate 1536 (0 : ℚ)) ∧
    (CourseRAG.create_course_embeddings embed courses).1.length = courses.length ∧
    ∀ top_k, CourseRAG.retrieve_relevant_courses sim courses course_embeddings none top_k = [] := by
  refine ⟨?_, List.length_map courses _, fun top_k => rfl⟩
  show (List.map _ courses)[i]? = _
  rw [List.getElem?_map, hc]
  simp only [Option.map_some']
  rw [hfail]

/-- C6 witness: one course, an embedding API that always raises. -/
theorem claim_C6_zero_vector_fallback_witness :
    (CourseRAG.create_course_embeddings (fun _ => none) [⟨none, none, none, none, none⟩]).1[0]? =
        some (List.replicate 1536 (0 : ℚ)) ∧
    (CourseRAG.create_course_embeddings (fun _ => none) [⟨none, none, none, none, none⟩]).1.length =
        [(⟨none, none, none, none, none⟩ : Course)].length ∧
    ∀ top_k, CourseRAG.retrieve_relevant_courses (fun _ _ => 0)
        [⟨none, none, none, none, none⟩] [] none top_k = [] :=
  claim_C6_zero_vector_fallback (fun _ => none) [⟨none, none, none, none, none⟩]
    (fun _ _ => 0) [] 0 ⟨none, none, none, none, none⟩ rfl rfl

/-- AgentResponse from `agents/shared_types.py`: the uniform envelope
returned by every stage. `data` is the stage-specific payload type. -/
structure AgentResponse (α : Type) where
  success : Bool
  data : Option α
  errors : Option (List String)
  metadata : Option (List (String × String))
  next_action : Option String
  requires_user_input : Bool
deriving Repr, DecidableEq

/-- Python `str.lower()` (ASCII case mapping), implemented over the
character list so that it evaluates by kernel reduction. -/
def pyLower (s : String) : String := String.mk (s.toList.map Char.toLower)

/-- Python `str.upper()` (ASCII case mapping). -/
def pyUpper (s : String) : String := String.mk (s.toList.map Char.toUpper)

namespace ParserAgent

/-- Entity bag of the parsed-query record (`entities` in the JSON returned
by the parser LLM). Every field is nullable. -/
structure Entities where
  year : Option String
  interests : Option (List String)
  credit_hours : Option ℚ
  career_path : Option String
  gpa_priority : Option String
  specific_courses : Option (List String)
  prerequisites_taken : Option (List String)
  difficulty_preference : Option String
  time_constraints : Option String
deriving Repr, DecidableEq

/-- Parsed-query record produced by `ParserAgent._llm_parse`. The fields
`intent`, `is_course_related`, `confidence`, `needs_clarification` and
`entities` are exactly the keys `_llm_parse` requires before returning the
record; `suggested_clarifications` may be absent (`none`). -/
structure ParsedData where
  intent : String
  is_course_related : Bool
  confidence : ℚ
  needs_clarification : Bool
  entities : Entities
  suggested_clarifications : Option (List String)
deriving Repr, DecidableEq

/-- Vagueness test at `parser_agent.py:127`: the Python condition
`interests and len(interests) == 1 and interests[0].lower() in
['computer science', 'cs']`. -/
def is_generic_cs (interests : Option (List String)) : Bool :=
  match interests with
  | some [i] => pyLower i == "computer science" || pyLower i == "cs"
  | _ => false

/-- Three fixed follow-up questions installed by `ParserAgent.parse` when
the query is too generic and the LLM supplied no clarifications. -/
def default_clarifications : List String :=
  ["What specific CS topics interest you? (e.g., AI, cybersecurity, web development, databases)",
   "What year are you in?",
   "Are you exploring for a career path or general interest?"]

/-- Post-processing applied by `ParserAgent.parse` to the record returned
by `_llm_parse`: a single generic
interest forces `needs_clarification`, caps confidence at 0.65 and fills
in the three default clarification questions when the LLM supplied none
(absent key or empty list). -/
def vague_adjust (parsed_data : ParsedData) : ParsedData :=
  if is_generic_cs parsed_data.entities.interests then
    { parsed_data with
      needs_clarification := true,
      confidence := min parsed_data.confidence (0.65 : ℚ),
      suggested_clarifications :=
        match parsed_data.suggested_clarifications with
        | none => some default_clarifications
        | some [] => some default_clarifications
        | some l => some l }
  else parsed_data

/-- `ParserAgent.parse`: the oracle is the outcome of `_llm_parse` together
with everything else inside the `try` block (`.error e` models any raised
exception, including `_llm_parse` returning a malformed record and the
subsequent attribute access raising). On success the adjusted record is
wrapped in a successful `AgentResponse`; on an exception the response is
`success=False` with a single error string and no data. -/
def parse (model : String) (llm_outcome : Except String ParsedData) :
    AgentResponse ParsedData :=
  match llm_outcome with
  | .ok parsed_data =>
    { success := true,
      data := some (vague_adjust parsed_data),
      errors := none,
      metadata := some [("model_used", model), ("parsing_method", "pure_llm")],
      next_action := none,
      requires_user_input := false }
  | .error e =>
    { success := false,
      data := none,
      errors := some ["Parsing error: " ++ e],
      metadata := none,
      next_action := none,
      requires_user_input := false }

end ParserAgent

/-- C3: when the entity bag contains exactly one interest equal to the
literal "Computer Science" or "CS", `ParserAgent.parse` returns the record
with `needs_clarification` forced to true and the confidence equal to the
minimum of the model-reported confidence and 0.65. -/
theorem claim_C3_generic_cs_clarification (model : String)
    (parsed_data : ParserAgent.ParsedData) (i : String)
    (hi : parsed_data.entities.interests = some [i])
    (hlit : i = "Computer Science" ∨ i = "CS") :
    (ParserAgent.parse model (.ok parsed_data)).data =
        some (ParserAgent.vague_adjust parsed_data) ∧
    (ParserAgent.vague_adjust parsed_data).needs_clarification = true ∧
    (ParserAgent.vague_adjust parsed_data).confidence =
        min parsed_data.confidence (0.65 : ℚ) := by
  have hgen : ParserAgent.is_generic_cs parsed_data.entities.interests = true := by
    rw [hi]
    rcases hlit with h | h <;> subst h <;> decide
  refine ⟨rfl, ?_, ?_⟩ <;>
    simp [ParserAgent.vague_adjust, hgen]

/-- C3 witness: concrete record whose only interest is "CS" with
model-reported confidence 0.9. -/
theorem claim_C3_generic_cs_clarification_witness :
    (ParserAgent.parse "gpt-4o-mini"
        (.ok ⟨"course_recommendation", true, 0.9, false,
              ⟨none, some ["CS"], none, none, none, none, none, none, none⟩, none⟩)).data =
      some (ParserAgent.vague_adjust
        ⟨"course_recommendation", true, 0.9, false,
         ⟨none, some ["CS"], none, none, none, none, none, none, none⟩, none⟩) ∧
    (ParserAgent.vague_adjust
        ⟨"course_recommendation", true, 0.9, false,
         ⟨none, some ["CS"], none, none, none, none, none, none, none⟩, none⟩).needs_clarification = true ∧
    (ParserAgent.vague_adjust
        ⟨"course_recommendation", true, 0.9, false,
         ⟨none, some ["CS"], none, none, none, none, none, none, none⟩, none⟩).confidence =
      min (0.9 : ℚ) (0.65 : ℚ) :=
  claim_C3_generic_cs_clarification "gpt-4o-mini"
    ⟨"course_recommendation", true, 0.9, false,
     ⟨none, some ["CS"], none, none, none, none, none, none, none⟩, none⟩
    "CS" rfl (Or.inr rfl)

/-- Python `str.strip()`: whitespace removed from both ends. -/
def pyStrip (s : String) : String :=
  String.mk (((s.toList.dropWhile Char.isWhitespace).reverse.dropWhile
    Char.isWhitespace).reverse)

/-- Helper for substring containment: does `hay` start with `needle`? -/
def startsWithChars : List Char → List Char → Bool
  | [], _ => true
  | _ :: _, [] => false
  | a :: as, b :: bs => a == b && startsWithChars as bs

/-- Helper for substring containment over character lists. -/
def hasSubstrChars (needle : List Char) : List Char → Bool
  | [] => needle.isEmpty
  | b :: bs => startsWithChars needle (b :: bs) || hasSubstrChars needle bs

/-- Python `needle in hay` on strings: substring containment (the empty
needle is contained in everything). -/
def pyIn (needle hay : String) : Bool := hasSubstrChars needle.toList hay.toList

/-- Python `s.replace(' ', '').replace(':', '')`: every space and colon
removed. -/
def stripSpacesColons (s : String) : String :=
  String.mk ((s.toList.filter (fun c => c != ' ')).filter (fun c => c != ':'))

/-- Python `re.search(r'\d+', s)`: the first maximal run of digits of `s`,
or `none` when `s` has no digit. -/
def firstDigitRun : List Char → Option (List Char)
  | [] => none
  | c :: cs =>
    if c.isDigit then some ((c :: cs).takeWhile Char.isDigit)
    else firstDigitRun cs

/-- Python `s.split(sep)` for a single-character separator (used as
`course_code.split(':')`): splits at every occurrence, keeping empty
pieces. -/
def pySplitChar (sep : Char) : List Char → List Char → List String
  | [], acc => [String.mk acc.reverse]
  | c :: cs, acc =>
    if c == sep then String.mk acc.reverse :: pySplitChar sep cs []
    else pySplitChar sep cs (c :: acc)

/-- Python `s.split()` with no argument: maximal runs of non-whitespace,
empty pieces dropped. -/
def pySplitWs : List Char → List Char → List String
  | [], acc => if acc.isEmpty then [] else [String.mk acc.reverse]
  | c :: cs, acc =>
    if c.isWhitespace then
      if acc.isEmpty then pySplitWs cs []
      else String.mk acc.reverse :: pySplitWs cs []
    else pySplitWs cs (c :: acc)

namespace DataAgent

/-- Payload of a successful `DataAgent.fetch_courses` response: the dict
with keys `courses`, `total_found` and `search_method`. -/
structure FetchData where
  courses : List Course
  total_found : Nat
  search_method : String
deriving Repr, DecidableEq

/-- `DataAgent.fetch_courses`: the oracle is the outcome of the whole
`try` block around `_rag_retrieve` (`.error e` models any raised
exception). On success the matched courses are wrapped with their count;
on an exception the response is `success=False` with one error string and
no data. -/
def fetch_courses (model : String) (rag_outcome : Except String (List Course)) :
    AgentResponse FetchData :=
  match rag_outcome with
  | .ok matched_courses =>
    { success := true,
      data := some ⟨matched_courses, matched_courses.length, "semantic"⟩,
      errors := none,
      metadata := some [("model_used", model)],
      next_action := none,
      requires_user_input := false }
  | .error e =>
    { success := false,
      data := none,
      errors := some ["Data retrieval error: " ++ e],
      metadata := none,
      next_action := none,
      requires_user_input := false }

/-- Payload of a `DataAgent.lookup_course` response: either a single
matched course (with the lookup method string), several title matches
needing disambiguation, or the no-match dict
`{'attempted_search': 'course_identifier'}`. -/
inductive LookupData where
  | single (course : Course) (lookup_method : String)
  | multiple (courses : List Course)
  | attempted (s : String)
deriving Repr, DecidableEq

/-- Exact-match test of the first loop of `DataAgent.lookup_course`:
the identifier (lowercased, stripped) is a substring of the upper-cased
course code, or the space/colon-free forms are substrings, or the first
digit run of the identifier occurs in the last colon-separated piece of
the space/colon-free code. -/
def lookup_match (normalized : String) (course : Course) : Bool :=
  let course_code := pyUpper (course.code.getD "")
  let normalized_search := stripSpacesColons normalized
  let normalized_code := stripSpacesColons course_code
  pyIn normalized course_code || pyIn normalized_search normalized_code ||
    (match firstDigitRun normalized_search.toList with
     | some digits =>
       pyIn (String.mk digits) ((pySplitChar ':' normalized_code.toList []).getLastD "")
     | none => false)

/-- Search terms of the title-match loop: whitespace-separated pieces of
the normalized identifier longer than 2 characters. -/
def search_terms (normalized : String) : List String :=
  (pySplitWs (pyLower normalized).toList []).filter (fun term => decide (2 < term.length))

/-- Title-match test: a non-empty term list, every term a substring of the
lower-cased course title. -/
def title_match (terms : List String) (course : Course) : Bool :=
  !terms.isEmpty && terms.all (fun term => pyIn term (pyLower (course.title.getD "")))

/-- `DataAgent.lookup_course`: `exc` models an exception raised inside the
`try` block (caught and turned into a failure response); otherwise the
lookup is a pure function of the loaded course list and the identifier.
Note the no-match branch returns `success=False` with the non-null data
payload `{'attempted_search': 'course_identifier'}` (the literal string,
as in the source). -/
def lookup_course (model : String) (courses_data : List Course)
    (exc : Option String) (course_identifier : String) : AgentResponse LookupData :=
  match exc with
  | some e =>
    { success := false, data := none,
      errors := some ["Course lookup error: " ++ e],
      metadata := none, next_action := none, requires_user_input := false }
  | none =>
    let normalized := pyLower (pyStrip course_identifier)
    match courses_data.find? (lookup_match normalized) with
    | some course =>
      { success := true,
        data := some (.single course "exact_code_match"),
        errors := none,
        metadata := some [("search_query", course_identifier), ("model_used", model)],
        next_action := none, requires_user_input := false }
    | none =>
      let terms := search_terms normalized
      match courses_data.filter (title_match terms) with
      | [course] =>
        { success := true,
          data := some (.single course "title_keyword_match"),
          errors := none,
          metadata := some [("search_query", course_identifier), ("model_used", model)],
          next_action := none, requires_user_input := false }
      | [] =>
        { success := false,
          data := some (.attempted "course_identifier"),
          errors := some ["No course found matching '" ++ course_identifier ++ "'"],
          metadata := none, next_action := none, requires_user_input := false }
      | title_matches =>
        { success := true,
          data := some (.multiple title_matches),
          errors := none,
          metadata := some [("search_query", course_identifier), ("model_used", model)],
          next_action := none, requires_user_input := false }

end DataAgent

/-- JSON value, as decoded by `json.loads` from the LLM response text. -/
inductive Json where
  | null
  | bool (b : Bool)
  | num (q : ℚ)
  | str (s : String)
  | arr (elements : List Json)
  | obj (fields : List (String × Json))

/-- Python `dict.get(key)` on a decoded JSON object (`none` for a missing
key or a non-object). -/
def Json.get (j : Json) (key : String) : Option Json :=
  match j with
  | .obj fields => (fields.find? (fun p => p.1 == key)).map Prod.snd
  | _ => none

namespace PlanningAgent

/-- Outcome of the LLM call plus JSON extraction in
`PlanningAgent._llm_rank`: `.error e` models an exception raised by
`self.run` or by `json.loads`; `.ok none` models a response text in which
the regex finds no JSON object; `.ok (some j)` a successfully decoded
value `j`. -/
abbrev RankOutcome := Except String (Option Json)

/-- Test of `_llm_rank`: the decoded object has the key `ranked_courses`
bound to a list. -/
def has_ranked_courses_list (j : Json) : Bool :=
  match j.get "ranked_courses" with
  | some (.arr _) => true
  | _ => false

/-- `PlanningAgent._llm_rank`: every failure path (exception, no JSON
found, decoded object without a `ranked_courses` list) returns the empty
dict; only a decoded object carrying a `ranked_courses` list is returned
as is. -/
def llm_rank (outcome : RankOutcome) : Json :=
  match outcome with
  | .error _ => Json.obj []
  | .ok none => Json.obj []
  | .ok (some ranked) =>
    if has_ranked_courses_list ranked then ranked else Json.obj []

/-- `PlanningAgent.rank_courses`: an empty candidate list is the one
failure path reached by the ranking logic itself; `outer_exc` models an
exception raised outside `_llm_rank`'s own `try` block (e.g. while
building the prompt) and caught by `rank_courses`. In every other case
the response is successful and carries whatever `_llm_rank` produced —
including the empty dict for a malformed LLM response. -/
def rank_courses (model : String) (courses : List Course)
    (outcome : RankOutcome) (outer_exc : Option String)
    (max_results : Nat) : AgentResponse Json :=
  let num_to_rank := min courses.length max_results
  if num_to_rank = 0 then
    { success := false, data := none,
      errors := some ["No courses provided to rank"],
      metadata := none, next_action := none, requires_user_input := false }
  else
    match outer_exc with
    | some e =>
      { success := false, data := none,
        errors := some ["Ranking error: " ++ e],
        metadata := none, next_action := none, requires_user_input := false }
    | none =>
      { success := true,
        data := some (llm_rank outcome),
        errors := none,
        metadata := some [("model_used", model), ("ranking_method", "llm_baseline")],
        next_action := none, requires_user_input := false }

end PlanningAgent

/-- C2 counterexample: the no-match branch of `DataAgent.lookup_course`
returns `success=False` with a NON-null data payload
(`{'attempted_search': 'course_identifier'}`), so the claim "data is null
whenever success is False" fails at this concrete input. -/
theorem claim_C2_counterexample :
    (DataAgent.lookup_course "gpt-4o-mini" [] none "databases").success = false ∧
    (DataAgent.lookup_course "gpt-4o-mini" [] none "databases").data ≠ none ∧
    (DataAgent.lookup_course "gpt-4o-mini" [] none "databases").data =
      some (DataAgent.LookupData.attempted "course_identifier") := by
  refine ⟨rfl, ?_, rfl⟩
  decide

/-- C2 amended: for every pipeline stage operation, a `success=False`
response carries a non-empty error list; the data payload is null in every
failure path except the no-match branch of `DataAgent.lookup_course`,
whose failure response carries the dict
`{'attempted_search': 'course_identifier'}`. -/
theorem claim_C2_failure_envelope (model : String)
    (parse_outcome : Except String ParserAgent.ParsedData)
    (rag_outcome : Except String (List Course))
    (courses_data courses : List Course) (exc : Option String) (identifier : String)
    (rank_outcome : PlanningAgent.RankOutcome) (outer_exc : Option String)
    (max_results : Nat) :
    ((ParserAgent.parse model parse_outcome).success = false →
      (∃ l, (ParserAgent.parse model parse_outcome).errors = some l ∧ l ≠ []) ∧
      (ParserAgent.parse model parse_outcome).data = none) ∧
    ((DataAgent.fetch_courses model rag_outcome).success = false →
      (∃ l, (DataAgent.fetch_courses model rag_outcome).errors = some l ∧ l ≠ []) ∧
      (DataAgent.fetch_courses model rag_outcome).data = none) ∧
    ((PlanningAgent.rank_courses model courses rank_outcome outer_exc max_results).success = false →
      (∃ l, (PlanningAgent.rank_courses model courses rank_outcome outer_exc max_results).errors =
          some l ∧ l ≠ []) ∧
      (PlanningAgent.rank_courses model courses rank_outcome outer_exc max_results).data = none) ∧
    ((DataAgent.lookup_course model courses_data exc identifier).success = false →
      (∃ l, (DataAgent.lookup_course model courses_data exc identifier).errors =
          some l ∧ l ≠ []) ∧
      ((DataAgent.lookup_course model courses_data exc identifier).data = none ∨
       (DataAgent.lookup_course model courses_data exc identifier).data =
         some (DataAgent.LookupData.attempted "course_identifier"))) := by
  refine ⟨?_, ?_, ?_, ?_⟩
  · intro h
    cases parse_outcome with
    | ok pd => exact absurd h (by simp [ParserAgent.parse])
    | error e => exact ⟨⟨["Parsing error: " ++ e], rfl, by simp⟩, rfl⟩
  · intro h
    cases rag_outcome with
    | ok cs => exact absurd h (by simp [DataAgent.fetch_courses])
    | error e => exact ⟨⟨["Data retrieval error: " ++ e], rfl, by simp⟩, rfl⟩
  · intro h
    by_cases h0 : min courses.length max_results = 0
    · refine ⟨⟨["No courses provided to rank"], ?_, by simp⟩, ?_⟩ <;>
        simp [PlanningAgent.rank_courses, h0]
    · cases oe : outer_exc with
      | some e =>
        refine ⟨⟨["Ranking error: " ++ e], ?_, by simp⟩, ?_⟩ <;>
          simp [PlanningAgent.rank_courses, h0, oe]
      | none =>
        rw [oe] at h
        exact absurd h (by simp [PlanningAgent.rank_courses, h0])
  · intro h
    cases exc with
    | some e =>
      exact ⟨⟨["Course lookup error: " ++ e], rfl, by simp⟩, Or.inl rfl⟩
    | none =>
      rcases hf : courses_data.find?
          (DataAgent.lookup_match (pyLower (pyStrip identifier))) with _ | c
      · rcases hm : courses_data.filter
            (DataAgent.title_match (DataAgent.search_terms (pyLower (pyStrip identifier))))
          with _ | ⟨c1, _ | ⟨c2, cs⟩⟩
        · refine ⟨⟨["No course found matching '" ++ identifier ++ "'"], ?_, by simp⟩, ?_⟩
          · simp [DataAgent.lookup_course, hf, hm]
          · right
            simp [DataAgent.lookup_course, hf, hm]
        · simp [DataAgent.lookup_course, hf, hm] at h
        · simp [DataAgent.lookup_course, hf, hm] at h
      · simp [DataAgent.lookup_course, hf] at h

/-- C2 amended-claim witness: parser failure path at a concrete exception
message, and the concrete no-match lookup. -/
theorem claim_C2_failure_envelope_witness :
    ((ParserAgent.parse "gpt-4o-mini" (.error "boom")).success = false →
      (∃ l, (ParserAgent.parse "gpt-4o-mini" (.error "boom")).errors = some l ∧ l ≠ []) ∧
      (ParserAgent.parse "gpt-4o-mini" (.error "boom")).data = none) ∧
    ((DataAgent.fetch_courses "gpt-4o-mini" (.error "down")).success = false →
      (∃ l, (DataAgent.fetch_courses "gpt-4o-mini" (.error "down")).errors = some l ∧ l ≠ []) ∧
      (DataAgent.fetch_courses "gpt-4o-mini" (.error "down")).data = none) ∧
    ((PlanningAgent.rank_courses "gpt-4o-mini" [] (.ok none) none 5).success = false →
      (∃ l, (PlanningAgent.rank_courses "gpt-4o-mini" [] (.ok none) none 5).errors =
          some l ∧ l ≠ []) ∧
      (PlanningAgent.rank_courses "gpt-4o-mini" [] (.ok none) none 5).data = none) ∧
    ((DataAgent.lookup_course "gpt-4o-mini" [] none "databases").success = false →
      (∃ l, (DataAgent.lookup_course "gpt-4o-mini" [] none "databases").errors =
          some l ∧ l ≠ []) ∧
      ((DataAgent.lookup_course "gpt-4o-mini" [] none "databases").data = none ∨
       (DataAgent.lookup_course "gpt-4o-mini" [] none "databases").data =
         some (DataAgent.LookupData.attempted "course_identifier"))) :=
  claim_C2_failure_envelope "gpt-4o-mini" (.error "boom") (.error "down")
    [] [] none "databases" (.ok none) none 5

/-- C4 counterexample: with one candidate course and a ranking response in
which no JSON object is found, `rank_courses` returns a SUCCESSFUL
response whose data is the empty dict — not the unsuccessful response the
claim asserts. -/
theorem claim_C4_counterexample :
    (PlanningAgent.rank_courses "gpt-4o-mini" [⟨none, none, none, none, none⟩]
        (.ok none) none 5).success = true ∧
    (PlanningAgent.rank_courses "gpt-4o-mini" [⟨none, none, none, none, none⟩]
        (.ok none) none 5).data = some (Json.obj []) :=
  ⟨rfl, rfl⟩

/-- C4 amended: a malformed LLM ranking response (exception, no JSON
object in the text, or a decoded object without a `ranked_courses` list)
yields the empty ranking dict, but the `AgentResponse` is SUCCESSFUL
(`success=True`); the turn is not reported as a pipeline failure. An
unsuccessful response arises only from an empty candidate list or an
exception outside `_llm_rank`. -/
theorem claim_C4_malformed_ranking (model : String) (courses : List Course)
    (outcome : PlanningAgent.RankOutcome) (max_results : Nat)
    (hne : courses ≠ []) (hmax : 0 < max_results)
    (hmal : (∃ e, outcome = .error e) ∨ outcome = .ok none ∨
      (∃ j, outcome = .ok (some j) ∧ PlanningAgent.has_ranked_courses_list j = false)) :
    PlanningAgent.llm_rank outcome = Json.obj [] ∧
    (PlanningAgent.rank_courses model courses outcome none max_results).success = true ∧
    (PlanningAgent.rank_courses model courses outcome none max_results).data =
      some (Json.obj []) := by
  have hrank : PlanningAgent.llm_rank outcome = Json.obj [] := by
    rcases hmal with ⟨e, he⟩ | he | ⟨j, he, hj⟩ <;> subst he <;>
      simp [PlanningAgent.llm_rank, *]
  have h0 : ¬ min courses.length max_results = 0 := by
    have : courses.length ≠ 0 := by
      cases courses with
      | nil => exact absurd rfl hne
      | cons c cs => simp
    omega
  refine ⟨hrank, ?_, ?_⟩ <;> simp [PlanningAgent.rank_courses, h0, hrank]

/-- C4 amended-claim witness: one course, response text without JSON. -/
theorem claim_C4_malformed_ranking_witness :
    PlanningAgent.llm_rank (.ok none) = Json.obj [] ∧
    (PlanningAgent.rank_courses "gpt-4o-mini" [⟨none, none, none, none, none⟩]
        (.ok none) none 5).success = true ∧
    (PlanningAgent.rank_courses "gpt-4o-mini" [⟨none, none, none, none, none⟩]
        (.ok none) none 5).data = some (Json.obj []) :=
  claim_C4_malformed_ranking "gpt-4o-mini" [⟨none, none, none, none, none⟩]
    (.ok none) 5 (by simp) (by simp) (Or.inr (Or.inl rfl))

namespace OrchestratorAgent

/-- Templated message returned when the parser marks the query not
course-related (`orchestrator_agent.py:170`). -/
def not_course_related_msg : String :=
  "I'm here to help with course recommendations at Rutgers CS. Your question seems to be about something else. Can you ask me about courses, prerequisites, or class planning?"

/-- Templated redirect returned when the parsed intent is `off_topic`
(`orchestrator_agent.py:173`). -/
def off_topic_msg : String :=
  "I specialize in helping Rutgers CS students find courses. Could you ask me something about course selection?"

/-- Clarification message (`orchestrator_agent.py:186`): the fixed lead-in
followed by one dashed line per suggested clarification. -/
def clarification_msg (suggestions : List String) : String :=
  "I'd love to help you find courses! To give you the best recommendations, could you tell me:\n" ++
    String.intercalate "\n" (suggestions.map (fun s => "- " ++ s))

/-- Message when the data agent is `None` (`orchestrator_agent.py:192`). -/
def data_unavailable_msg : String := "the data retrieval system is not available yet. "

/-- Message when retrieval returns zero courses
(`orchestrator_agent.py:209`). -/
def no_courses_msg : String :=
  "I couldn't find any courses matching your criteria. Could you try rephrasing your interests or being more specific?"

/-- Message when the parser stage fails (`orchestrator_agent.py:165`). -/
def parser_trouble_msg (errors : List String) : String :=
  "I had trouble understanding your request: " ++ String.intercalate ", " errors

/-- Message when the data stage fails (`orchestrator_agent.py:201`). -/
def data_trouble_msg (errors : List String) : String :=
  "I couldn't retrieve course data: " ++ String.intercalate ", " errors

/-- Message when the planning stage fails (`orchestrator_agent.py:221`). -/
def ranking_trouble_msg (errors : List String) : String :=
  "I had trouble ranking the courses: " ++ String.intercalate ", " errors

/-- Oracles for one `process_query` turn: availability of the sub-agents
(`parser_available` is `self.parser_agent is not None`; a `*_attr_error`
models the missing attribute when a sub-agent's construction raised before
assignment), and the outcome of each external call. `final_run` is the
summarization call `self.agent.run(context)`; `fallback_run` is the
fallback call made inside the `except` handler. -/
structure Oracles where
  parser_available : Bool
  parse_outcome : Except String ParserAgent.ParsedData
  data_attr_error : Bool
  data_available : Bool
  rag_outcome : Except String (List Course)
  planning_attr_error : Bool
  rank_outcome : PlanningAgent.RankOutcome
  rank_exc : Option String
  final_run : Except String String
  fallback_run : Except String String
  model_id : String

/-- Fallback path of the `except` handler: one direct LLM call; if that
call raises too, the exception propagates out of `process_query`. -/
def fallback (o : Oracles) (agents_invoked : List String) :
    Except String (Option (String × List String)) :=
  match o.fallback_run with
  | .ok text => .ok (some (text, agents_invoked))
  | .error e => .error e

/-- `OrchestratorAgent.process_query`: the per-turn pipeline. Returns
`.ok none` when the parser agent is `None` (the Python function falls off
its end and returns `None`), `.ok (some (text, agents_invoked))` for a
normal return, and `.error e` when an exception escapes (only possible
when the fallback LLM call itself raises). -/
def process_query (o : Oracles) (user_query : String) :
    Except String (Option (String × List String)) :=
  if o.parser_available = false then .ok none
  else
    let agents_invoked := ["ParserAgent"]
    let parser_response := ParserAgent.parse "gpt-4o-mini" o.parse_outcome
    if parser_response.success = false then
      .ok (some (parser_trouble_msg (parser_response.errors.getD []), agents_invoked))
    else
      match parser_response.data with
      | none => fallback o agents_invoked
      | some parsed_data =>
        if parsed_data.is_course_related = false then
          .ok (some (not_course_related_msg, agents_invoked))
        else if parsed_data.intent = "off_topic" then
          .ok (some (off_topic_msg, agents_invoked))
        else
          let suggestions := parsed_data.suggested_clarifications.getD []
          let interests := parsed_data.entities.interests.getD []
          if parsed_data.needs_clarification = true ∧ suggestions ≠ [] ∧
              (interests = [] ∨ interests = ["Computer Science"] ∨ interests = ["CS"]) then
            .ok (some (clarification_msg suggestions, agents_invoked))
          else if o.data_attr_error then fallback o agents_invoked
          else if o.data_available = false then
            .ok (some (data_unavailable_msg, agents_invoked))
          else
            let agents_invoked := agents_invoked ++ ["Data Agent"]
            let data_response := DataAgent.fetch_courses o.model_id o.rag_outcome
            if data_response.success = false then
              .ok (some (data_trouble_msg (data_response.errors.getD []), agents_invoked))
            else
              match data_response.data with
              | none => fallback o agents_invoked
              | some fetch_data =>
                let courses := fetch_data.courses
                if courses.length = 0 then
                  .ok (some (no_courses_msg, agents_invoked))
                else
                  let agents_invoked := agents_invoked ++ ["Planning Agent"]
                  if o.planning_attr_error then fallback o agents_invoked
                  else
                    let planning_response :=
                      PlanningAgent.rank_courses o.model_id courses o.rank_outcome o.rank_exc 5
                    if planning_response.success = false then
                      .ok (some (ranking_trouble_msg (planning_response.errors.getD []),
                        agents_invoked))
                    else
                      match o.final_run with
                      | .ok final_response => .ok (some (final_response, agents_invoked))
                      | .error _ => fallback o agents_invoked

end OrchestratorAgent

theorem vague_adjust_intent (pd : ParserAgent.ParsedData) :
    (ParserAgent.vague_adjust pd).intent = pd.intent := by
  unfold ParserAgent.vague_adjust
  split <;> rfl

theorem vague_adjust_course_related (pd : ParserAgent.ParsedData) :
    (ParserAgent.vague_adjust pd).is_course_related = pd.is_course_related := by
  unfold ParserAgent.vague_adjust
  split <;> rfl

theorem vague_adjust_entities (pd : ParserAgent.ParsedData) :
    (ParserAgent.vague_adjust pd).entities = pd.entities := by
  unfold ParserAgent.vague_adjust
  split <;> rfl

/-- C10: when the parser agent is unavailable (`self.parser_agent is
None`), `process_query` skips its whole body and returns `None` — no
fallback response, no agent invoked. -/
theorem claim_C10_parser_none_returns_none (o : OrchestratorAgent.Oracles)
    (user_query : String) (h : o.parser_available = false) :
    OrchestratorAgent.process_query o user_query = .ok none := by
  simp [OrchestratorAgent.process_query, h]

/-- C10 witness: concrete turn with every other oracle armed, parser
unavailable. -/
theorem claim_C10_parser_none_returns_none_witness :
    OrchestratorAgent.process_query
      ⟨false, .error "init failed", false, true, .ok [], false, .ok none, none,
       .ok "final", .ok "fallback", "gpt-4o"⟩ "recommend me courses" = .ok none :=
  claim_C10_parser_none_returns_none
    ⟨false, .error "init failed", false, true, .ok [], false, .ok none, none,
     .ok "final", .ok "fallback", "gpt-4o"⟩ "recommend me courses" rfl

/-- C8 counterexample: a turn whose parsed intent is `off_topic` but whose
`is_course_related` flag is false (the typical parser output for a query
like "I like sports") returns the not-course-related template of line 170,
not the off-topic redirect of line 173 — so a single fixed redirect
message is not returned on every off-topic turn. -/
theorem claim_C8_counterexample :
    OrchestratorAgent.process_query
      ⟨true, .ok ⟨"off_topic", false, 0.9, false,
          ⟨none, none, none, none, none, none, none, none, none⟩, none⟩,
       false, true, .ok [], false, .ok none, none, .ok "final", .ok "fallback", "gpt-4o"⟩
      "I like sports" =
      .ok (some (OrchestratorAgent.not_course_related_msg, ["ParserAgent"])) ∧
    OrchestratorAgent.not_course_related_msg ≠ OrchestratorAgent.off_topic_msg := by
  exact ⟨rfl, by decide⟩

/-- C8 amended: on every turn whose parse succeeds with intent
`off_topic`, the orchestrator returns one of the two templated redirect
messages — the off-topic redirect when `is_course_related` is true, the
not-course-related template otherwise (that check comes first) — and
invokes neither the retrieval nor the ranking stage (`agents_invoked` is
exactly `["ParserAgent"]`). -/
theorem claim_C8_off_topic_redirect (o : OrchestratorAgent.Oracles)
    (user_query : String) (pd : ParserAgent.ParsedData)
    (hav : o.parser_available = true)
    (hparse : o.parse_outcome = .ok pd)
    (hintent : pd.intent = "off_topic") :
    OrchestratorAgent.process_query o user_query =
      .ok (some ((if pd.is_course_related then OrchestratorAgent.off_topic_msg
        else OrchestratorAgent.not_course_related_msg), ["ParserAgent"])) ∧
    "Data Agent" ∉ (["ParserAgent"] : List String) ∧
    "Planning Agent" ∉ (["ParserAgent"] : List String) := by
  refine ⟨?_, by simp, by simp⟩
  cases hic : pd.is_course_related with
  | false =>
    simp [OrchestratorAgent.process_query, hav, hparse, ParserAgent.parse,
      vague_adjust_course_related, hic]
  | true =>
    simp [OrchestratorAgent.process_query, hav, hparse, ParserAgent.parse,
      vague_adjust_course_related, vague_adjust_intent, hic, hintent]

/-- C8 amended-claim witness: off-topic and course-related, so the
off-topic redirect of line 173 is returned. -/
theorem claim_C8_off_topic_redirect_witness :
    OrchestratorAgent.process_query
      ⟨true, .ok ⟨"off_topic", true, 0.9, false,
          ⟨none, none, none, none, none, none, none, none, none⟩, none⟩,
       false, true, .ok [], false, .ok none, none, .ok "final", .ok "fallback", "gpt-4o"⟩
      "tell me a joke" =
      .ok (some ((if ((⟨"off_topic", true, 0.9, false,
          ⟨none, none, none, none, none, none, none, none, none⟩, none⟩ :
            ParserAgent.ParsedData)).is_course_related
        then OrchestratorAgent.off_topic_msg
        else OrchestratorAgent.not_course_related_msg), ["ParserAgent"])) ∧
    "Data Agent" ∉ (["ParserAgent"] : List String) ∧
    "Planning Agent" ∉ (["ParserAgent"] : List String) :=
  claim_C8_off_topic_redirect
    ⟨true, .ok ⟨"off_topic", true, 0.9, false,
        ⟨none, none, none, none, none, none, none, none, none⟩, none⟩,
     false, true, .ok [], false, .ok none, none, .ok "final", .ok "fallback", "gpt-4o"⟩
    "tell me a joke"
    ⟨"off_topic", true, 0.9, false,
     ⟨none, none, none, none, none, none, none, none, none⟩, none⟩
    rfl rfl rfl

/-- C7 counterexample: parser succeeds with interests `["CS"]` and
`needs_clarification` forced true, but the LLM supplied its own single
clarification question; the orchestrator echoes that question, not the
three fixed follow-up questions. -/
theorem claim_C7_counterexample :
    OrchestratorAgent.process_query
      ⟨true, .ok ⟨"course_recommendation", true, 0.8, false,
          ⟨none, some ["CS"], none, none, none, none, none, none, none⟩,
          some ["Which specific CS topic interests you?"]⟩,
       false, true, .ok [], false, .ok none, none, .ok "final", .ok "fallback", "gpt-4o"⟩
      "I want CS courses" =
      .ok (some (OrchestratorAgent.clarification_msg
        ["Which specific CS topic interests you?"], ["ParserAgent"])) ∧
    OrchestratorAgent.clarification_msg ["Which specific CS topic interests you?"] ≠
      OrchestratorAgent.clarification_msg ParserAgent.default_clarifications := by
  exact ⟨rfl, by decide⟩

/-- C7 amended: on every turn whose parse succeeds with
`entities.interests == ["CS"]` (and which the parser marks course-related
with a non-off-topic intent), the orchestrator returns the clarification
message listing the parser's suggested clarifications — which are the
three fixed follow-up questions exactly when the LLM supplied none (key
absent or empty) — and invokes neither the data stage nor the ranking
stage (`agents_invoked` is exactly `["ParserAgent"]`). -/
theorem claim_C7_generic_cs_flow (o : OrchestratorAgent.Oracles)
    (user_query : String) (pd : ParserAgent.ParsedData)
    (hav : o.parser_available = true)
    (hparse : o.parse_outcome = .ok pd)
    (hint : pd.entities.interests = some ["CS"])
    (hrel : pd.is_course_related = true)
    (hoff : pd.intent ≠ "off_topic") :
    OrchestratorAgent.process_query o user_query =
      .ok (some (OrchestratorAgent.clarification_msg
        ((ParserAgent.vague_adjust pd).suggested_clarifications.getD []),
        ["ParserAgent"])) ∧
    ((pd.suggested_clarifications = none ∨ pd.suggested_clarifications = some []) →
      (ParserAgent.vague_adjust pd).suggested_clarifications =
        some ParserAgent.default_clarifications) ∧
    "Data Agent" ∉ (["ParserAgent"] : List String) ∧
    "Planning Agent" ∉ (["ParserAgent"] : List String) := by
  have hgen : ParserAgent.is_generic_cs (some ["CS"]) = true := by decide
  refine ⟨?_, ?_, by simp, by simp⟩
  · rcases hs : pd.suggested_clarifications with _ | ⟨_ | ⟨x, xs⟩⟩ <;>
      simp [OrchestratorAgent.process_query, hav, hparse, ParserAgent.parse,
        ParserAgent.vague_adjust, hgen, hs, hint, hrel, hoff,
        ParserAgent.default_clarifications]
  · intro h
    rcases h with h | h <;>
      simp [ParserAgent.vague_adjust, hint, hgen, h]

/-- C7 amended-claim witness: LLM supplied no clarifications, so the three
fixed questions are installed and echoed. -/
theorem claim_C7_generic_cs_flow_witness :
    OrchestratorAgent.process_query
      ⟨true, .ok ⟨"course_recommendation", true, 0.8, false,
          ⟨none, some ["CS"], none, none, none, none, none, none, none⟩, none⟩,
       false, true, .ok [], false, .ok none, none, .ok "final", .ok "fallback", "gpt-4o"⟩
      "I want CS courses" =
      .ok (some (OrchestratorAgent.clarification_msg
        ((ParserAgent.vague_adjust ⟨"course_recommendation", true, 0.8, false,
          ⟨none, some ["CS"], none, none, none, none, none, none, none⟩,
          none⟩).suggested_clarifications.getD []), ["ParserAgent"])) ∧
    (((⟨"course_recommendation", true, 0.8, false,
        ⟨none, some ["CS"], none, none, none, none, none, none, none⟩, none⟩ :
          ParserAgent.ParsedData).suggested_clarifications = none ∨
      ((⟨"course_recommendation", true, 0.8, false,
        ⟨none, some ["CS"], none, none, none, none, none, none, none⟩, none⟩ :
          ParserAgent.ParsedData)).suggested_clarifications = some []) →
      (ParserAgent.vague_adjust ⟨"course_recommendation", true, 0.8, false,
        ⟨none, some ["CS"], none, none, none, none, none, none, none⟩,
        none⟩).suggested_clarifications = some ParserAgent.default_clarifications) ∧
    "Data Agent" ∉ (["ParserAgent"] : List String) ∧
    "Planning Agent" ∉ (["ParserAgent"] : List String) :=
  claim_C7_generic_cs_flow
    ⟨true, .ok ⟨"course_recommendation", true, 0.8, false,
        ⟨none, some ["CS"], none, none, none, none, none, none, none⟩, none⟩,
     false, true, .ok [], false, .ok none, none, .ok "final", .ok "fallback", "gpt-4o"⟩
    "I want CS courses"
    ⟨"course_recommendation", true, 0.8, false,
     ⟨none, some ["CS"], none, none, none, none, none, none, none⟩, none⟩
    rfl rfl rfl rfl (by decide)

/-- C9: on every turn that reaches the data stage and whose retrieval
succeeds with zero courses, the orchestrator returns the rephrase message
and the planning stage is never invoked (`"Planning Agent"` is absent from
`agents_invoked`). -/
theorem claim_C9_zero_courses_rephrase (o : OrchestratorAgent.Oracles)
    (user_query : String) (pd : ParserAgent.ParsedData)
    (hav : o.parser_available = true)
    (hparse : o.parse_outcome = .ok pd)
    (hrel : pd.is_course_related = true)
    (hoff : pd.intent ≠ "off_topic")
    (hskip : ¬((ParserAgent.vague_adjust pd).needs_clarification = true ∧
      (ParserAgent.vague_adjust pd).suggested_clarifications.getD [] ≠ [] ∧
      ((ParserAgent.vague_adjust pd).entities.interests.getD [] = [] ∨
       (ParserAgent.vague_adjust pd).entities.interests.getD [] = ["Computer Science"] ∨
       (ParserAgent.vague_adjust pd).entities.interests.getD [] = ["CS"])))
    (hattr : o.data_attr_error = false)
    (hdav : o.data_available = true)
    (hrag : o.rag_outcome = .ok []) :
    OrchestratorAgent.process_query o user_query =
      .ok (some (OrchestratorAgent.no_courses_msg, ["ParserAgent", "Data Agent"])) ∧
    "Planning Agent" ∉ (["ParserAgent", "Data Agent"] : List String) := by
  refine ⟨?_, by simp⟩
  simp [OrchestratorAgent.process_query, hav, hparse, ParserAgent.parse,
    vague_adjust_course_related, hrel, vague_adjust_intent, hoff, hskip,
    hattr, hdav, hrag, DataAgent.fetch_courses]

/-- C9 witness: specific non-vague parse, retrieval succeeding with an
empty course list. -/
theorem claim_C9_zero_courses_rephrase_witness :
    OrchestratorAgent.process_query
      ⟨true, .ok ⟨"course_recommendation", true, 0.9, false,
          ⟨none, some ["databases"], none, none, none, none, none, none, none⟩, none⟩,
       false, true, .ok [], false, .ok none, none, .ok "final", .ok "fallback", "gpt-4o"⟩
      "I want database courses" =
      .ok (some (OrchestratorAgent.no_courses_msg, ["ParserAgent", "Data Agent"])) ∧
    "Planning Agent" ∉ (["ParserAgent", "Data Agent"] : List String) :=
  claim_C9_zero_courses_rephrase
    ⟨true, .ok ⟨"course_recommendation", true, 0.9, false,
        ⟨none, some ["databases"], none, none, none, none, none, none, none⟩, none⟩,
     false, true, .ok [], false, .ok none, none, .ok "final", .ok "fallback", "gpt-4o"⟩
    "I want database courses"
    ⟨"course_recommendation", true, 0.9, false,
     ⟨none, some ["databases"], none, none, none, none, none, none, none⟩, none⟩
    rfl rfl rfl (by decide) (by decide) rfl rfl rfl
